import Mathlib

/-!
Verification development for the go-multi-llm repository: a shallow
embedding in Lean 4 of the pure logic of the provider layer (schema
conversion, JSON extraction, system-prompt composition, streaming delta
normalization, channel-event discipline and token-usage accounting),
together with theorems settling the specification claims.

Conventions of the embedding:
* Go pointers (`*int`, `*float64`, `*bool`) become `Option _`; `nil` is
  `none`.  Go `float64` payloads of numeric schema constraints are carried
  as `Int`: no claim depends on fractional values, only on presence and on
  the value `0`.
* Go `error` values become `Option String` / `Except String _` carrying
  the error message.
* Byte strings are modelled as `String` / `List Char` (the inputs that the
  claims exercise are ASCII, where Go's byte indexing and the character
  indexing used here agree).
* Channel traffic is modelled as the list of events (sends and the close)
  that one call performs, in order; Go's `defer close(outChan)` is
  translated by ending the event list of every exit path with a single
  `close` event, which is exactly the guarantee `defer` gives.
-/

/-- Model of `llm.UsageInfo` (llm/provider.go): canonical token accounting record. -/
structure UsageInfo where
  inputTokens : Int := 0
  outputTokens : Int := 0
  cacheCreateTokens : Int := 0
  cacheHitTokens : Int := 0
  cacheMissTokens : Int := 0
deriving DecidableEq

def usageZero : UsageInfo := {}

/-- Model of `llm.StreamChunk` (llm/provider.go): one item delivered on the caller's
    channel.  `err` is the Go `Err error` field, `none` meaning `nil`. -/
structure StreamChunk where
  delta : String := ""
  isFinal : Bool := false
  err : Option String := none
deriving DecidableEq

/-- A plain text fragment, `llm.StreamChunk{Delta: d}`. -/
def deltaChunk (d : String) : StreamChunk := { delta := d }

/-- The finality marker, `llm.StreamChunk{IsFinal: true}`. -/
def finalChunk : StreamChunk := { isFinal := true }

/-- An error item, `llm.StreamChunk{Err: e}`. -/
def errChunk (e : String) : StreamChunk := { err := some e }

/-- Model of `llm.SystemBlock` (llm/provider.go). -/
structure SystemBlock where
  text : String := ""
  useCache : Bool := false
deriving DecidableEq

/- ### Character-level utilities shared by the JSON helpers (utils package)

The bracket and backtick characters are written via `Char.ofNat` so that
the definitions below stay purely character-level. -/

def lbrace : Char := Char.ofNat 123
def rbrace : Char := Char.ofNat 125
def lbrack : Char := Char.ofNat 91
def rbrack : Char := Char.ofNat 93
def btick : Char := Char.ofNat 96

/-- ASCII whitespace recognized by `strings.TrimSpace` / JSON framing
    (space, tab, newline, carriage return; the inputs exercised here
    contain no other Unicode space). -/
def isWsChar (c : Char) : Bool :=
  c = ' ' || c = '\t' || c = '\n' || c = '\r'

def trimLeading : List Char → List Char
  | [] => []
  | c :: rest => if isWsChar c then trimLeading rest else c :: rest

/-- Model of `strings.TrimSpace` on a character list. -/
def trimChars (l : List Char) : List Char :=
  ((trimLeading ((trimLeading l).reverse))).reverse

/-- Model of `strings.TrimSpace` on a `String`. -/
def trimString (s : String) : String := String.mk (trimChars s.toList)

/-- Model of `strings.Index(l, c)` for a single character: first index or `-1`. -/
def firstIdxOfChar (c : Char) (l : List Char) : Int :=
  match l.findIdx? (fun x => x = c) with
  | some n => (n : Int)
  | none => -1

/-- Model of `strings.LastIndex(l, c)` for a single character: last index or `-1`. -/
def lastIdxOfChar (c : Char) (l : List Char) : Int :=
  match l.reverse.findIdx? (fun x => x = c) with
  | some n => (l.length : Int) - 1 - (n : Int)
  | none => -1

/-- Model of `strings.Index` for a substring pattern (first match position). -/
def idxOfSub (pat : List Char) : List Char → Option Nat
  | [] => if pat.isEmpty then some 0 else none
  | c :: rest =>
    if pat.isPrefixOf (c :: rest) then some 0
    else
      match idxOfSub pat rest with
      | some n => some (n + 1)
      | none => none

/-- Model of `strings.TrimPrefix`. -/
def goTrimPre (pat l : List Char) : List Char :=
  if pat.isPrefixOf l then l.drop pat.length else l

/-- Model of `strings.TrimSuffix`. -/
def goTrimSuf (pat l : List Char) : List Char :=
  if pat.isSuffixOf l then l.take (l.length - pat.length) else l

/-- Go slice `l[s:e]` on character lists (indices as Go `int`). -/
def sliceChars (l : List Char) (s e : Int) : List Char :=
  (l.drop s.toNat).take (e - s).toNat

/- ### A JSON syntax validator

`encoding/json.Unmarshal(data, &json.RawMessage{})` succeeds exactly when
`data` is one complete JSON value (with surrounding whitespace allowed);
the parser below decides that, consuming the input left to right.  The
container rules recurse on an explicit fuel argument; callers pass
`length + 1`, which always suffices because every recursive step first
consumes at least one character. -/

def skipWs : List Char → List Char
  | [] => []
  | c :: rest => if isWsChar c then skipWs rest else c :: rest

/-- Hexadecimal digit (for `\uXXXX` escapes). -/
def isHexChar (c : Char) : Bool :=
  c.isDigit || ('a' ≤ c && c ≤ 'f') || ('A' ≤ c && c ≤ 'F')

/-- Parse the remainder of a JSON string literal (the opening quote is
    already consumed); returns the rest of the input. -/
def pStringBody : List Char → Option (List Char)
  | [] => none
  | '"' :: rest => some rest
  | '\\' :: 'u' :: h1 :: h2 :: h3 :: h4 :: rest =>
    if isHexChar h1 && isHexChar h2 && isHexChar h3 && isHexChar h4 then
      pStringBody rest
    else none
  | '\\' :: e :: rest =>
    if e = '"' || e = '\\' || e = '/' || e = 'b' || e = 'f' || e = 'n' || e = 'r' || e = 't' then
      pStringBody rest
    else none
  | c :: rest => if c.toNat < 32 then none else pStringBody rest

def dropDigits : List Char → List Char
  | [] => []
  | c :: rest => if c.isDigit then dropDigits rest else c :: rest

/-- At least one digit, then greedily all following digits. -/
def pDigits1 : List Char → Option (List Char)
  | [] => none
  | c :: rest => if c.isDigit then some (dropDigits rest) else none

/-- Optional exponent part of a JSON number. -/
def pExpOpt : List Char → Option (List Char)
  | [] => some []
  | c :: rest =>
    if c = 'e' || c = 'E' then
      match rest with
      | s :: rest2 => if s = '+' || s = '-' then pDigits1 rest2 else pDigits1 (s :: rest2)
      | [] => none
    else some (c :: rest)

/-- Optional fraction part, then optional exponent. -/
def pFracOpt : List Char → Option (List Char)
  | '.' :: rest =>
    (match pDigits1 rest with
     | some r => pExpOpt r
     | none => none)
  | l => pExpOpt l

/-- A JSON number after an optional leading minus sign. -/
def pNumberAfterSign : List Char → Option (List Char)
  | [] => none
  | '0' :: rest => pFracOpt rest
  | c :: rest => if c.isDigit then pFracOpt (dropDigits rest) else none

/-- Match a literal character sequence. -/
def stripLit : List Char → List Char → Option (List Char)
  | [], l => some l
  | _ :: _, [] => none
  | p :: ps, c :: rest => if c = p then stripLit ps rest else none

mutual

def pValue : Nat → List Char → Option (List Char)
  | 0, _ => none
  | fuel + 1, l =>
    match skipWs l with
    | [] => none
    | c :: rest =>
      if c = '"' then pStringBody rest
      else if c = lbrace then pObjBody fuel rest
      else if c = lbrack then pArrBody fuel rest
      else if c = 't' then stripLit ['r', 'u', 'e'] rest
      else if c = 'f' then stripLit ['a', 'l', 's', 'e'] rest
      else if c = 'n' then stripLit ['u', 'l', 'l'] rest
      else if c = '-' then pNumberAfterSign rest
      else if c.isDigit then pNumberAfterSign (c :: rest)
      else none

def pObjBody : Nat → List Char → Option (List Char)
  | 0, _ => none
  | fuel + 1, l =>
    match skipWs l with
    | [] => none
    | c :: rest =>
      if c = rbrace then some rest
      else if c = '"' then
        match pStringBody rest with
        | some afterKey =>
          (match skipWs afterKey with
           | ':' :: afterColon =>
             (match pValue fuel afterColon with
              | some afterVal => pObjRest fuel afterVal
              | none => none)
           | _ => none)
        | none => none
      else none

def pObjRest : Nat → List Char → Option (List Char)
  | 0, _ => none
  | fuel + 1, l =>
    match skipWs l with
    | [] => none
    | c :: rest =>
      if c = rbrace then some rest
      else if c = ',' then
        match skipWs rest with
        | '"' :: rest2 =>
          (match pStringBody rest2 with
           | some afterKey =>
             (match skipWs afterKey with
              | ':' :: afterColon =>
                (match pValue fuel afterColon with
                 | some afterVal => pObjRest fuel afterVal
                 | none => none)
              | _ => none)
           | none => none)
        | _ => none
      else none

def pArrBody : Nat → List Char → Option (List Char)
  | 0, _ => none
  | fuel + 1, l =>
    match skipWs l with
    | [] => none
    | c :: rest =>
      if c = rbrack then some rest
      else
        match pValue fuel (c :: rest) with
        | some afterVal => pArrRest fuel afterVal
        | none => none

def pArrRest : Nat → List Char → Option (List Char)
  | 0, _ => none
  | fuel + 1, l =>
    match skipWs l with
    | [] => none
    | c :: rest =>
      if c = rbrack then some rest
      else if c = ',' then
        match pValue fuel rest with
        | some afterVal => pArrRest fuel afterVal
        | none => none
      else none

end

/-- Truth of `json.Unmarshal(l, &json.RawMessage {}) == nil`: the input is exactly
    one complete JSON value, modulo surrounding whitespace. -/
def isValidJSONChars (l : List Char) : Bool :=
  match pValue (l.length + 1) l with
  | some rest => (skipWs rest).isEmpty
  | none => false

/- ### `utils.ExtractValidJSON` (utils/json.go)

A line-by-line translation of the Go function onto character lists.  Index
variables are Go `int`s, with `-1` as the "not found" sentinel, exactly as
in the source. -/

def fence3 : List Char := [btick, btick, btick]

def fenceJson : List Char := fence3 ++ ['j', 's', 'o', 'n']

def extractValidJSONChars (raw0 : List Char) : List Char :=
  let raw1 := trimChars raw0
  -- if strings.Count(raw, "`") == 1 { raw = strings.ReplaceAll(raw, "`", "") }
  let raw2 := if raw1.countP (fun c => c = btick) = 1
              then raw1.filter (fun c => c != btick) else raw1
  -- markdown fence stripping
  let raw3 :=
    if fenceJson.isPrefixOf raw2 && fence3.isSuffixOf raw2 then
      trimChars (goTrimSuf fence3 (goTrimPre fenceJson raw2))
    else if fence3.isPrefixOf raw2 && fence3.isSuffixOf raw2 then
      trimChars (goTrimSuf fence3 (goTrimPre fence3 raw2))
    else raw2
  let firstBrace := firstIdxOfChar lbrace raw3
  let firstBracket := firstIdxOfChar lbrack raw3
  let lastBrace := lastIdxOfChar rbrace raw3
  let lastBracket := lastIdxOfChar rbrack raw3
  -- first pass: pick a span, preferring the earlier-starting bracket type
  let se1 : Int × Int :=
    if firstBrace ≠ -1 ∧ lastBrace ≠ -1 ∧ lastBrace > firstBrace then
      (if firstBracket = -1 ∨ (firstBrace < firstBracket ∧ lastBrace > lastBracket) then
        (firstBrace, lastBrace + 1)
      else ((-1 : Int), (-1 : Int)))
    else ((-1 : Int), (-1 : Int))
  let se2 : Int × Int :=
    if firstBracket ≠ -1 ∧ lastBracket ≠ -1 ∧ lastBracket > firstBracket then
      (if firstBrace = -1 ∨ firstBracket < firstBrace ∨ se1.1 = -1 then
        (firstBracket, lastBracket + 1)
      else se1)
    else se1
  if se2.1 ≠ -1 ∧ se2.2 ≠ -1 ∧ se2.2 > se2.1
      ∧ isValidJSONChars (sliceChars raw3 se2.1 se2.2) then
    sliceChars raw3 se2.1 se2.2
  else
    -- second pass: earliest opening bracket of either type
    let st0 : Int := if firstBrace ≠ -1 then firstBrace else -1
    let st : Int := if firstBracket ≠ -1 ∧ (st0 = -1 ∨ firstBracket < st0)
                    then firstBracket else st0
    if st ≠ -1 then
      let actualEnd : Int :=
        if raw3[st.toNat]? = some lbrace then
          (if lastBrace > st then lastBrace + 1 else -1)
        else if raw3[st.toNat]? = some lbrack then
          (if lastBracket > st then lastBracket + 1 else -1)
        else -1
      if actualEnd ≠ -1 ∧ actualEnd ≤ (raw3.length : Int)
          ∧ isValidJSONChars (sliceChars raw3 st actualEnd) then
        sliceChars raw3 st actualEnd
      else raw3
    else raw3

/-- Model of `utils.ExtractValidJSON`: best-effort extraction of the most likely
    JSON fragment; falls back to the trimmed original string. -/
def extractValidJSON (s : String) : String :=
  String.mk (extractValidJSONChars s.toList)

/- ### `utils.ExtractJSONFromString` (utils/json.go)

The Go function first applies the regular expression
  (?s)BTICK BTICK BTICK json \s*(.*?)\s* BTICK BTICK BTICK
whose leftmost match takes the first occurrence of the opening fence and
the earliest closing fence after it, with the captured interior trimmed of
surrounding whitespace; then validates the capture as JSON.  Failing that,
it checks whether the trimmed whole string is a braced or bracketed JSON
value.  Otherwise it reports an error. -/

def fenceCapture (l : List Char) : Option (List Char) :=
  match idxOfSub fenceJson l with
  | some i =>
    let after := (l.drop i).drop fenceJson.length
    (match idxOfSub fence3 after with
     | some j => some (trimChars (after.take j))
     | none => none)
  | none => none

deriving instance DecidableEq for Except

def extractJSONFromString (s : String) : Except String String :=
  let l := s.toList
  let fenced : Option (List Char) :=
    match fenceCapture l with
    | some inner => if isValidJSONChars inner then some inner else none
    | none => none
  match fenced with
  | some inner => .ok (String.mk inner)
  | none =>
    let t := trimChars l
    if ((t.head? = some lbrace ∧ t.getLast? = some rbrace)
        ∨ (t.head? = some lbrack ∧ t.getLast? = some rbrack))
        ∧ isValidJSONChars t then
      .ok (String.mk t)
    else
      .error "no valid JSON found in the string or markdown block"

/- ### `llm.SchemaProperty` and `ConvertSchemaToMap` (llm/schema.go)

`SchemaProperty` is a recursive Go struct; its pointer fields become
`Option`s.  To keep recursion structural, the recursive positions
(`Properties map[string]*SchemaProperty`, `Items *SchemaProperty`) use
dedicated option/list types declared in the same mutual block; all other
fields are grouped in `SchemaScalars`.  `Enum/Const/Default` carry scalar
JSON payloads (`interface{}` in Go); only their presence matters to the
converter. -/

/-- A scalar JSON payload, for `Enum`, `Const` and `Default`. -/
inductive JsonVal where
  | str (s : String)
  | int (n : Int)
  | bool (b : Bool)
  | null
deriving DecidableEq

/-- The non-recursive fields of `llm.SchemaProperty`.  `Description` and
    `Format` are carried for completeness: `ConvertSchemaToMap` never
    reads them (they are absent from its output). -/
structure SchemaScalars where
  type : String := ""
  description : String := ""
  format : String := ""
  minLength : Option Int := none
  maxLength : Option Int := none
  pattern : String := ""
  minimum : Option Int := none
  maximum : Option Int := none
  multipleOf : Option Int := none
  minItems : Option Int := none
  maxItems : Option Int := none
  uniqueItems : Bool := false
  required : List String := []
  enum : List JsonVal := []
  constVal : Option JsonVal := none
  defaultVal : Option JsonVal := none
  ref : String := ""
  additionalProperties : Option Bool := none
deriving DecidableEq

mutual

/-- Model of `llm.SchemaProperty`: scalars plus the two recursive fields. -/
inductive SchemaProperty where
  | mk (scalars : SchemaScalars) (properties : OptProps) (items : OptItems)

/-- Model of `Items *SchemaProperty` (`none` is the nil pointer). -/
inductive OptItems where
  | none
  | some (p : SchemaProperty)

/-- Model of `Properties map[string]*SchemaProperty` (`none` is the nil map;
    `some` holds the entries in a fixed order). -/
inductive OptProps where
  | none
  | some (ps : PropList)

/-- The entries of a `Properties` map. -/
inductive PropList where
  | nil
  | cons (name : String) (p : SchemaProperty) (rest : PropList)

end

def SchemaProperty.scalars : SchemaProperty → SchemaScalars
  | .mk sc _ _ => sc

def SchemaProperty.properties : SchemaProperty → OptProps
  | .mk _ ps _ => ps

def SchemaProperty.items : SchemaProperty → OptItems
  | .mk _ _ it => it

/-- Presence of the `Items` pointer. -/
def OptItems.isSome : OptItems → Bool
  | .some _ => true
  | .none => false

/-- Presence of the `Properties` map (nil-map test). -/
def OptProps.isSome : OptProps → Bool
  | .some _ => true
  | .none => false

mutual

/-- A value of the wire map (`map[string]interface{}`). -/
inductive Wire where
  | str (s : String)
  | int (n : Int)
  | bool (b : Bool)
  | strList (l : List String)
  | jsonList (l : List JsonVal)
  | jsonVal (v : JsonVal)
  | obj (m : WireMap)

/-- The wire map itself, preserving the order in which
    `ConvertSchemaToMap` inserts its keys.  (Go stores these in an
    unordered `map[string]interface{}`; the order below is the source's
    insertion order and is not relied on by any claim.) -/
inductive WireMap where
  | nil
  | cons (k : String) (v : Wire) (rest : WireMap)

end

def wmAppend : WireMap → WireMap → WireMap
  | .nil, m => m
  | .cons k v rest, m => .cons k v (wmAppend rest m)

def wmKeys : WireMap → List String
  | .nil => []
  | .cons k _ rest => k :: wmKeys rest

def wmLookup (k : String) : WireMap → Option Wire
  | .nil => Option.none
  | .cons k' v rest => if k' = k then Option.some v else wmLookup k rest

/-- Entry for `if s != "" { m[k] = s }` -/
def strEntry (s : String) (k : String) : WireMap :=
  if s ≠ "" then .cons k (.str s) .nil else .nil

/-- Entry for `if p != nil { m[k] = *p }` for `*int` (and the `float64` constraints,
    whose payloads this embedding carries as `Int`). -/
def optIntEntry (o : Option Int) (k : String) : WireMap :=
  match o with
  | some n => .cons k (.int n) .nil
  | none => .nil

/-- Entry for `if p != nil { m[k] = *p }` for `*bool`. -/
def optBoolEntry (o : Option Bool) (k : String) : WireMap :=
  match o with
  | some b => .cons k (.bool b) .nil
  | none => .nil

/-- Entry for `if b { m[k] = b }` (the `UniqueItems` rule). -/
def boolEntry (b : Bool) (k : String) : WireMap :=
  if b then .cons k (.bool b) .nil else .nil

/-- Entry for `if len(l) > 0 { m[k] = l }` for `[]string`. -/
def strListEntry (l : List String) (k : String) : WireMap :=
  if l ≠ [] then .cons k (.strList l) .nil else .nil

/-- Entry for `if len(l) > 0 { m[k] = l }` for `[]interface{}`. -/
def jsonListEntry (l : List JsonVal) (k : String) : WireMap :=
  if l ≠ [] then .cons k (.jsonList l) .nil else .nil

/-- Entry for `if v != nil { m[k] = v }` for `interface{}`. -/
def optJsonEntry (o : Option JsonVal) (k : String) : WireMap :=
  match o with
  | some v => .cons k (.jsonVal v) .nil
  | none => .nil

mutual

/-- Model of `llm.ConvertSchemaToMap`: one key per present / non-default field, in
    the source's insertion order.  The Go function's only error exits are
    propagated from recursive calls, and the base case never fails, so the
    function is total and is modelled without an error channel. -/
def convertSchemaToMap : SchemaProperty → WireMap
  | .mk sc props items =>
    wmAppend (strEntry sc.type "type")
    (wmAppend (match props with
      | .some ps => .cons "properties" (.obj (convertPropList ps)) .nil
      | .none => .nil)
    (wmAppend (match items with
      | .some p => .cons "items" (.obj (convertSchemaToMap p)) .nil
      | .none => .nil)
    (wmAppend (optIntEntry sc.minLength "minLength")
    (wmAppend (optIntEntry sc.maxLength "maxLength")
    (wmAppend (strEntry sc.pattern "pattern")
    (wmAppend (optIntEntry sc.minimum "minimum")
    (wmAppend (optIntEntry sc.maximum "maximum")
    (wmAppend (optIntEntry sc.multipleOf "multipleOf")
    (wmAppend (optIntEntry sc.minItems "minItems")
    (wmAppend (optIntEntry sc.maxItems "maxItems")
    (wmAppend (boolEntry sc.uniqueItems "uniqueItems")
    (wmAppend (strListEntry sc.required "required")
    (wmAppend (jsonListEntry sc.enum "enum")
    (wmAppend (optJsonEntry sc.constVal "const")
    (wmAppend (optJsonEntry sc.defaultVal "default")
    (wmAppend (strEntry sc.ref "$ref")
    (optBoolEntry sc.additionalProperties "additionalProperties")))))))))))))))))

/-- The `properties` sub-map: each named property converted recursively. -/
def convertPropList : PropList → WireMap
  | .nil => .nil
  | .cons k p rest => .cons k (.obj (convertSchemaToMap p)) (convertPropList rest)

end

/- ### `llm.ConvertToJSONSchema`: serialize the wire map to JSON text

`json.Marshal` escapes `"` and backslash, control characters, and (in its
default HTML-safe mode) `<`, `>` and `&`.  Note: `json.Marshal` emits Go
map keys in sorted order, whereas `WireMap` preserves the converter's
insertion order; no claim inspects the serialized key order, so the
serializer below walks the map in stored order. -/

def hexDigitChar (n : Nat) : Char :=
  if n < 10 then Char.ofNat (48 + n) else Char.ofNat (87 + n)

def jsonEscapeChar (c : Char) : String :=
  if c = '"' then "\\\""
  else if c = '\\' then "\\\\"
  else if c = '\n' then "\\n"
  else if c = '\r' then "\\r"
  else if c = '\t' then "\\t"
  else if c = '<' ∨ c = '>' ∨ c = '&' ∨ c.toNat < 32 then
    String.mk ['\\', 'u', '0', '0', hexDigitChar (c.toNat / 16), hexDigitChar (c.toNat % 16)]
  else String.mk [c]

def jsonQuote (s : String) : String :=
  "\"" ++ String.join (s.toList.map jsonEscapeChar) ++ "\""

def jsonOfJsonVal : JsonVal → String
  | .str s => jsonQuote s
  | .int n => toString n
  | .bool b => if b then "true" else "false"
  | .null => "null"

mutual

def jsonOfWire : Wire → String
  | .str s => jsonQuote s
  | .int n => toString n
  | .bool b => if b then "true" else "false"
  | .strList l => "[" ++ String.intercalate "," (l.map jsonQuote) ++ "]"
  | .jsonList l => "[" ++ String.intercalate "," (l.map jsonOfJsonVal) ++ "]"
  | .jsonVal v => jsonOfJsonVal v
  | .obj m => "\x7b" ++ jsonOfWireMap m ++ "\x7d"

def jsonOfWireMap : WireMap → String
  | .nil => ""
  | .cons k v .nil => jsonQuote k ++ ":" ++ jsonOfWire v
  | .cons k v rest => jsonQuote k ++ ":" ++ jsonOfWire v ++ "," ++ jsonOfWireMap rest

end

/-- Model of `llm.ConvertToJSONSchema`: `ConvertSchemaToMap` followed by
    `json.Marshal`. -/
def convertToJSONSchema (sp : SchemaProperty) : String :=
  jsonOfWire (.obj (convertSchemaToMap sp))

/- ### `utils.GetLangName` and the option set -/

/-- The `languageNames` table (utils package). -/
def languageNames : List (String × String) :=
  [("en", "English"), ("ko", "Korean"), ("ja", "Japanese"), ("zh", "Chinese"),
   ("fr", "French"), ("de", "German"), ("es", "Spanish"), ("it", "Italian"),
   ("ru", "Russian"), ("pt", "Portuguese")]

/-- Model of `utils.GetLangName`: human-readable name for a known code, otherwise
    the code itself. -/
def getLangName (code : String) : String :=
  match languageNames.lookup code with
  | some name => name
  | none => code

/-- Model of `llm.Tool` (llm/provider.go). -/
structure Tool where
  name : String := ""
  description : String := ""
  inputSchema : Option SchemaProperty := none

/-- Model of `llm.GenerationOptions` (llm/provider.go).  The sampling fields
    (`Temperature float32`, `MaxTokens int32`, `TopK/TopP float32`) are
    carried as `Option Int`: the prompt composers under verification never
    read them, only their presence would matter elsewhere. -/
structure GenerationOptions where
  temperature : Option Int := none
  maxTokens : Option Int := none
  topK : Option Int := none
  topP : Option Int := none
  language : String := ""
  system : String := ""
  systemBlocks : List SystemBlock := []
  responseFormat : String := ""
  responseSchema : Option SchemaProperty := none
  tools : List Tool := []
  useCache : Bool := false
  allowSexualContent : Bool := false

/- ### System-prompt composers -/

/-- The language directive used by the deepseek / ai302 / zai / cerebras
    builders: `"Please respond in %s language."` with `utils.GetLangName`. -/
def langDirectiveRespond (lang : String) : String :=
  "Please respond in " ++ getLangName lang ++ " language."

/-- Model of `deepseek.buildSystemPrompt` (providers/deepseek/provider.go, lines
    188-219): blocks, then free-text system, then the language directive
    (only for a set, non-"en" language), then the fenced schema directive,
    then the raw response-format directive; result trimmed.  The Go
    schema-conversion error exit returns the trimmed prefix early; the
    modelled converter is total, so that exit does not arise. -/
def deepseekBuildSystemPrompt (o : GenerationOptions) : String :=
  let s1 := String.join (o.systemBlocks.map (fun b => b.text ++ "\n\n"))
  let s2 := s1 ++ (if o.system ≠ "" then o.system ++ "\n\n" else "")
  let s3 := s2 ++ (if o.language ≠ "" ∧ o.language ≠ "en" then
                     langDirectiveRespond o.language ++ "\n\n" else "")
  let s4 := s3 ++ (match o.responseSchema with
    | some sp =>
      "Please provide your response strictly in the following JSON format, enclosed within ```json ... ```:\n```json\n"
        ++ convertToJSONSchema sp ++ "\n```\n\n"
    | none => "")
  let s5 := s4 ++ (if o.responseFormat ≠ "" then
                     "Response format: " ++ o.responseFormat ++ "\n\n" else "")
  trimString s5

/-- Model of `ai302.Provider.composeSystemPrompt` (providers/ai302/provider.go,
    lines 194-230): same shape as the deepseek builder, except that the
    language directive is emitted for every non-empty language (including
    "en") and the schema fence ends with a single newline. -/
def ai302ComposeSystemPrompt (o : GenerationOptions) : String :=
  let s1 := String.join (o.systemBlocks.map (fun b => b.text ++ "\n\n"))
  let s2 := s1 ++ (if o.system ≠ "" then o.system ++ "\n\n" else "")
  let s3 := s2 ++ (if o.language ≠ "" then
                     langDirectiveRespond o.language ++ "\n\n" else "")
  let s4 := s3 ++ (match o.responseSchema with
    | some sp =>
      "Please provide your response strictly in the following JSON format, enclosed within ```json ... ```:\n```json\n"
        ++ convertToJSONSchema sp ++ "\n```\n"
    | none => "")
  let s5 := s4 ++ (if o.responseFormat ≠ "" then
                     "Response format: " ++ o.responseFormat ++ "\n\n" else "")
  trimString s5

/-- The language reminder text used by the inception / openai / openrouter
    composers: a fixed Korean sentence for "ko"/"korean", otherwise
    `"Please write in <raw code>. "`. -/
def inceptionLangReminderText (lang : String) : String :=
  if lang = "ko" ∨ lang = "korean" then "해당 언어로 작성하라. "
  else "Please write in " ++ lang ++ ". "

/-- Model of `inception.composeSystemPrompt` (providers/inception/provider.go,
    lines 261-286; the openai and openrouter providers inline the same
    logic): the language reminder is placed before the system text; when
    `SystemBlocks` is non-empty the concatenated blocks replace the
    free-text system entirely. -/
def inceptionComposeSystemPrompt (o : GenerationOptions) : String :=
  let sp0 := o.system
  let sp1 := if o.language ≠ "" then inceptionLangReminderText o.language ++ sp0 else sp0
  if o.systemBlocks ≠ [] then
    let sb := String.join (o.systemBlocks.map (fun b => b.text))
    if o.language ≠ "" then inceptionLangReminderText o.language ++ sb else sb
  else sp1

/- ### OpenAI-SDK style streaming chunks (deepseek / groq / openai / ai302)

These providers iterate `stream.Next()` over `sdk.ChatCompletionChunk`
values; each chunk carries a list of choices whose delta has a `Content`
string.  After the loop, `stream.Err()` reports either `nil` (modelled as
`DsStreamExit.ok`) or an error. -/

structure DsDelta where
  content : String := ""
deriving DecidableEq

structure DsChoice where
  delta : DsDelta := {}
deriving DecidableEq

structure DsChunk where
  choices : List DsChoice := []
deriving DecidableEq

/-- The sends one loop iteration performs: the first choice's delta
    content, if non-empty. -/
def dsChunkSends (c : DsChunk) : List StreamChunk :=
  match c.choices with
  | [] => []
  | ch :: _ => if ch.delta.content ≠ "" then [deltaChunk ch.delta.content] else []

/-- All text fragments the loop sends, in arrival order. -/
def dsFragChunks (cs : List DsChunk) : List StreamChunk :=
  (cs.map dsChunkSends).flatten

/-- How the post-loop phase ends: `stream.Err()` nil or not. -/
inductive DsStreamExit where
  | ok
  | streamErr (e : String)

/-- Model of `deepseek.Provider.GenerateTextStream` (providers/deepseek/provider.go,
    lines 121-180), the sequence of `StreamChunk` values sent: fragments,
    then on `stream.Err() != nil` the error item, otherwise the finality
    marker.  (The ai302 provider's stream body is identical.) -/
def deepseekStreamSends (cs : List DsChunk) : DsStreamExit → List StreamChunk
  | .ok => dsFragChunks cs ++ [finalChunk]
  | .streamErr e => dsFragChunks cs ++ [errChunk e]

/-- Model of `groq.Provider.GenerateTextStream` (the groq provider, lines 124-180):
    fragments, then on error the error item; the success path returns the
    parsed usage without sending any finality marker. -/
def groqStreamSends (cs : List DsChunk) : DsStreamExit → List StreamChunk
  | .ok => dsFragChunks cs
  | .streamErr e => dsFragChunks cs ++ [errChunk e]

/-- Model of `openai.Provider.GenerateTextStream` (the openai provider, lines
    451-562): fragments only; neither a finality marker on success nor an
    error item on a stream error is sent (the error is returned only as
    the call's error result). -/
def openaiStreamSends (cs : List DsChunk) : DsStreamExit → List StreamChunk
  | .ok => dsFragChunks cs
  | .streamErr _ => dsFragChunks cs

/- ### Channel-event traces (claim C3)

A trace records every operation a call performs on the caller-owned
channel, in order.  `defer close(outChan)` runs on every return, so each
exit path's trace ends with one `close`. -/

inductive ChanEvent where
  | send (c : StreamChunk)
  | close
deriving DecidableEq

def isCloseEv : ChanEvent → Bool
  | .close => true
  | .send _ => false

/-- Trace of `deepseek.Provider.GenerateTextStream`: the sends of the
    chosen exit path, then the deferred close. -/
def deepseekStreamTrace (cs : List DsChunk) : DsStreamExit → List ChanEvent
  | .ok => (deepseekStreamSends cs .ok).map .send ++ [.close]
  | .streamErr e => (deepseekStreamSends cs (.streamErr e)).map .send ++ [.close]

/- ### Claude SSE streaming (providers/claude/provider.go) -/

/-- The `usage` payload of a Claude stream event. -/
structure ClaudeUsage where
  inputTokens : Int := 0
  outputTokens : Int := 0
  cacheCreationInputTokens : Int := 0
  cacheReadInputTokens : Int := 0
deriving DecidableEq

/-- A decoded Claude stream delta (`StreamDelta`). -/
structure ClaudeDelta where
  type : String := ""
  text : String := ""
deriving DecidableEq

/-- A decoded Claude SSE event, reduced to the fields the stream loop
    reads: `message_start` carries the message's usage (if the `Message`
    pointer is non-nil), `content_block_delta` a delta pointer,
    `message_delta` a usage pointer.  Malformed frames are skipped by the
    decoder and never reach this level. -/
inductive ClaudeStreamEvent where
  | messageStart (message : Option ClaudeUsage)
  | contentBlockDelta (delta : Option ClaudeDelta)
  | messageDelta (usage : Option ClaudeUsage)
  | messageStop
  | otherEvent
deriving DecidableEq

/-- Sends of one event: `content_block_delta` with `Type == "text_delta"`
    sends the text (no emptiness check in the claude loop);
    `message_stop` sends the finality marker. -/
def claudeEventSends : ClaudeStreamEvent → List StreamChunk
  | .contentBlockDelta (some d) => if d.type = "text_delta" then [deltaChunk d.text] else []
  | .messageStop => [finalChunk]
  | _ => []

def claudeBodySends (evs : List ClaudeStreamEvent) : List StreamChunk :=
  (evs.map claudeEventSends).flatten

/-- The exit paths of `claude.Provider.GenerateTextStream` (lines
    382-629).  `cancelledAt k` / `readErrAt k` take effect after `k`
    events have been processed. -/
inductive ClaudeStreamExit where
  | marshalErr (e : String)
  | newRequestErr (e : String)
  | doErrCancelled
  | doErr (e : String)
  | statusErr (e : String)
  | toolSchemaErr (e : String)
  | toolPropsErr
  | cancelledAt (k : Nat)
  | readErrAt (k : Nat) (e : String)
  | eofClean

/-- Trace of `claude.Provider.GenerateTextStream` on each exit path.  The
    deferred `close(outChan)` (lines 383-385) ends every path; the
    context-cancelled transport error (line 514-517), the invalid
    property-map return (line 438) and the cancellation check (line
    557-560) return without sending any item. -/
def claudeStreamTrace (evs : List ClaudeStreamEvent) : ClaudeStreamExit → List ChanEvent
  | .marshalErr e => [.send (errChunk e), .close]
  | .newRequestErr e => [.send (errChunk e), .close]
  | .doErrCancelled => [.close]
  | .doErr e => [.send (errChunk e), .close]
  | .statusErr e => [.send (errChunk e), .close]
  | .toolSchemaErr e => [.send (errChunk e), .close]
  | .toolPropsErr => [.close]
  | .cancelledAt k => (claudeBodySends (evs.take k)).map .send ++ [.close]
  | .readErrAt k e => (claudeBodySends (evs.take k)).map .send ++ [.send (errChunk e), .close]
  | .eofClean => (claudeBodySends evs).map .send ++ [.close]

/- ### Claude usage accounting (claim C4) -/

/-- The usage payload an event contributes, if any: `message_start` with a
    non-nil message, or `message_delta` with a non-nil usage (lines
    604-622). -/
def claudeUsageOfEvent : ClaudeStreamEvent → Option ClaudeUsage
  | .messageStart (some u) => some u
  | .messageDelta (some u) => some u
  | _ => none

/-- One usage update: all four mapped fields are assigned from the frame
    (`usage.InputTokens = ...` etc., lines 606-610 and 617-621); nothing
    is retained from the previous values of those fields, and
    `CacheMissTokens` is never touched by the stream loop. -/
def claudeApplyUsage (acc : UsageInfo) (u : ClaudeUsage) : UsageInfo :=
  { acc with
    inputTokens := u.inputTokens
    outputTokens := u.outputTokens
    cacheCreateTokens := u.cacheCreationInputTokens
    cacheHitTokens := u.cacheReadInputTokens }

def claudeUsageStep (acc : UsageInfo) (ev : ClaudeStreamEvent) : UsageInfo :=
  match claudeUsageOfEvent ev with
  | some u => claudeApplyUsage acc u
  | none => acc

/-- The usage record accumulated over a whole stream, starting from the
    zero record `usage := &llm.UsageInfo{}` (line 553). -/
def claudeFoldUsage (evs : List ClaudeStreamEvent) : UsageInfo :=
  evs.foldl claudeUsageStep usageZero

/- ### Z.AI streaming (providers/zai, bug-fixed revision in spec.md lines
     939-954) -/

/-- Model of `zai.StreamDelta`: visible content plus the reasoning channel. -/
structure ZaiStreamDelta where
  role : String := ""
  content : String := ""
  reasoningContent : String := ""
deriving DecidableEq

structure ZaiStreamChoice where
  delta : ZaiStreamDelta := {}
deriving DecidableEq

structure ZaiUsage where
  promptTokens : Int := 0
  completionTokens : Int := 0
  totalTokens : Int := 0
deriving DecidableEq

/-- A decoded Z.AI stream chunk (`StreamChunkResponse`, reduced to the
    fields the loop reads). -/
structure ZaiFrame where
  choices : List ZaiStreamChoice := []
  usage : Option ZaiUsage := none
deriving DecidableEq

/-- The fragments one decoded frame emits, per the bug-fixed loop body:
    `content := delta.Content; if content != "" { send }` — the
    `ReasoningContent` field is never read. -/
def zaiFrameEmits (f : ZaiFrame) : List StreamChunk :=
  match f.choices with
  | [] => []
  | c :: _ => if c.delta.content ≠ "" then [deltaChunk c.delta.content] else []

/-- Model of `zai.Provider.GenerateTextStream` (fixed revision), the sequence of
    items sent for a list of decoded frames: per-frame fragments, then on
    a scanner error the error item, otherwise the finality marker. -/
def zaiStreamSends (frames : List ZaiFrame) (scanErr : Option String) : List StreamChunk :=
  (frames.map zaiFrameEmits).flatten ++
    (match scanErr with
     | some e => [errChunk e]
     | none => [finalChunk])

/- ### Non-streaming result classification (claim C5) -/

/-- The schema post-processing step of `deepseek.Provider.GenerateText`
    (lines 103-109): keep the extraction result on success, the original
    text on failure. -/
def deepseekExtractForSchema (generated : String) : String :=
  match extractJSONFromString generated with
  | .ok extracted => extracted
  | .error _ => generated

/-- Model of `deepseek.Provider.GenerateText` (lines 97-117), from the decoded
    response (`choices` is the list of message contents) to the returned
    text or error: zero choices or an empty first content is the hard
    failure `"no content generated"` (the ai302, groq, cerebras and zai
    providers use the same check). -/
def deepseekGenerateText (choices : List String) (schemaSet : Bool) : Except String String :=
  match choices with
  | [] => .error "no content generated"
  | content :: _ =>
    if content = "" then .error "no content generated"
    else .ok (if schemaSet then deepseekExtractForSchema content else content)

structure ORToolCall where
  arguments : String := ""
deriving DecidableEq

/-- An openrouter response choice: message content plus tool calls. -/
structure ORMessage where
  content : String := ""
  toolCalls : List ORToolCall := []
deriving DecidableEq

/-- Model of `openrouter.Provider.GenerateText` (unnamed part, lines 102-123),
    from the decoded choices to the `(text, usage, error)` triple: zero
    choices returns `("", nil, nil)` — an empty success, not an error;
    otherwise the first tool call's arguments or the first message
    content, again with a nil error.  (The openai and inception providers
    behave identically.) -/
def openrouterGenerateText (choices : List ORMessage) (usage : UsageInfo) :
    String × Option UsageInfo × Option String :=
  match choices with
  | [] => ("", Option.none, Option.none)
  | m :: _ =>
    match m.toolCalls with
    | tc :: _ => (tc.arguments, Option.some usage, Option.none)
    | [] => (m.content, Option.some usage, Option.none)

/- ### Concrete inputs used by the claim theorems -/

/-- A stream of one frame carrying the fragment "Hi", for the C2
    counterexample. -/
def c2Frames : List DsChunk := [{ choices := [{ delta := { content := "Hi" } }] }]

/-- The usage frames of the claim's reference sequence
    `[{input:10}, {input:10,output:5}, {cacheHit:3}]`, as Claude stream
    events (`message_start` then two `message_delta`s). -/
def c4Frames : List ClaudeStreamEvent :=
  [.messageStart (some { inputTokens := 10 }),
   .messageDelta (some { inputTokens := 10, outputTokens := 5 }),
   .messageDelta (some { cacheReadInputTokens := 3 })]

/-- Options for the C6 counterexample: empty `SystemBlocks`, non-empty
    system text, language "ko". -/
def c6opts : GenerationOptions := { system := "S", language := "ko" }

/-- Options for the C7 counterexample: language set to the default "en". -/
def c7opts : GenerationOptions := { system := "S", language := "en" }

/-- A leaf schema with an explicitly-zero `Minimum` pointer. -/
def demoLeaf : SchemaProperty :=
  .mk { type := "integer", minimum := some 0 } OptProps.none OptItems.none

/-- An array schema nesting `demoLeaf` under `Items`. -/
def demoSchema : SchemaProperty :=
  .mk { type := "array" } OptProps.none (OptItems.some demoLeaf)


/- ### Claim theorems -/

/-- C8: best-effort JSON extraction satisfies the three reference vectors:
    a fenced JSON object inside prose is extracted exactly; a string with
    no JSON comes back as the trimmed original unchanged; a bracketed
    array inside prose is extracted, per the outermost-balanced-span rule
    preferring the earlier-starting bracket type. -/
theorem extractValidJSON_vectors :
    extractValidJSON "Sure! ```json\n\x7b\"a\":1\x7d\n``` Thanks!" = "\x7b\"a\":1\x7d" ∧
    extractValidJSON "no json here" = "no json here" ∧
    extractValidJSON "prefix [1,2,3] suffix" = "[1,2,3]" :=
  ⟨by decide, by decide, by decide⟩

/-- C1: in the Z.AI streaming path, a frame whose first choice carries an
    empty visible-content field emits no fragment, even when its
    reasoning-content field is non-empty — and therefore deleting such a
    frame from the stream leaves the delivered sequence unchanged:
    reasoning-channel text is never delivered as a `StreamChunk` delta. -/
theorem zai_reasoning_not_emitted (d : ZaiStreamDelta) (rest : List ZaiStreamChoice)
    (u : Option ZaiUsage) (pre post : List ZaiFrame) (scanErr : Option String)
    (hc : d.content = "") (hr : d.reasoningContent ≠ "") :
    zaiFrameEmits { choices := { delta := d } :: rest, usage := u } = [] ∧
    zaiStreamSends (pre ++ { choices := { delta := d } :: rest, usage := u } :: post) scanErr =
      zaiStreamSends (pre ++ post) scanErr := by
  have hemits : zaiFrameEmits { choices := { delta := d } :: rest, usage := u } = [] := by
    simp [zaiFrameEmits, hc]
  refine ⟨hemits, ?_⟩
  simp [zaiStreamSends, hemits]

/-- Witness for C1 at a concrete reasoning-only frame. -/
theorem zai_reasoning_not_emitted_witness :
    (ZaiStreamDelta.mk "" "" "The user wants 2+2.").content = "" ∧
    (ZaiStreamDelta.mk "" "" "The user wants 2+2.").reasoningContent ≠ "" ∧
    (zaiFrameEmits { choices := [{ delta := ZaiStreamDelta.mk "" "" "The user wants 2+2." }] } = [] ∧
     zaiStreamSends ([] ++ { choices := [{ delta := ZaiStreamDelta.mk "" "" "The user wants 2+2." }],
                             usage := Option.none } :: []) Option.none =
       zaiStreamSends ([] ++ []) Option.none) :=
  ⟨rfl, by decide,
    zai_reasoning_not_emitted (ZaiStreamDelta.mk "" "" "The user wants 2+2.") [] Option.none
      [] [] Option.none rfl (by decide)⟩

/-- C2 counterexample: the groq `GenerateTextStream` (unnamed part_003,
    one of the claim's cited sources) completes without error on a
    one-fragment stream yet delivers no `IsFinal` chunk at all — the
    claimed "exactly one finality marker, delivered last" is false. -/
theorem groq_no_final_marker_cex :
    ¬ (((groqStreamSends c2Frames DsStreamExit.ok).countP (fun c => c.isFinal)) = 1 ∧
       (groqStreamSends c2Frames DsStreamExit.ok).getLast? = some finalChunk) := by
  decide

/-- Fragments carry no finality flag. -/
theorem dsFragChunks_mem (c : StreamChunk) (cs : List DsChunk) (h : c ∈ dsFragChunks cs) :
    ∃ d, c = deltaChunk d := by
  simp only [dsFragChunks, List.mem_flatten, List.mem_map] at h
  obtain ⟨l, ⟨ch, _, rfl⟩, hc⟩ := h
  unfold dsChunkSends at hc
  rcases hch : ch.choices with _ | ⟨first, _⟩ <;> rw [hch] at hc
  · simp at hc
  · by_cases hne : first.delta.content ≠ "" <;> simp [hne] at hc
    exact ⟨first.delta.content, hc⟩

theorem dsFragChunks_no_final (cs : List DsChunk) :
    (dsFragChunks cs).countP (fun c => c.isFinal) = 0 := by
  refine List.countP_eq_zero.mpr (fun a ha => ?_)
  obtain ⟨d, rfl⟩ := dsFragChunks_mem a cs ha
  simp [deltaChunk]

theorem dsFragChunks_no_err (cs : List DsChunk) :
    (dsFragChunks cs).countP (fun c => c.err.isSome) = 0 := by
  refine List.countP_eq_zero.mpr (fun a ha => ?_)
  obtain ⟨d, rfl⟩ := dsFragChunks_mem a cs ha
  simp [deltaChunk]

/-- C2 amended: finality handling is per provider, not uniform.  The
    deepseek stream (like ai302) delivers exactly one `IsFinal` chunk,
    last, on success, and on a stream error delivers the error chunk last
    with no finality marker; the groq stream delivers no finality marker
    at all on success (its error path still delivers the error chunk
    last); the openai stream delivers neither a finality marker on
    success nor any error chunk on a stream error. -/
theorem stream_finality_amended (cs : List DsChunk) (e : String) :
    ((deepseekStreamSends cs .ok).countP (fun c => c.isFinal) = 1 ∧
     (deepseekStreamSends cs .ok).getLast? = some finalChunk) ∧
    ((deepseekStreamSends cs (.streamErr e)).countP (fun c => c.isFinal) = 0 ∧
     (deepseekStreamSends cs (.streamErr e)).getLast? = some (errChunk e)) ∧
    ((groqStreamSends cs .ok).countP (fun c => c.isFinal) = 0 ∧
     (groqStreamSends cs (.streamErr e)).countP (fun c => c.isFinal) = 0 ∧
     (groqStreamSends cs (.streamErr e)).getLast? = some (errChunk e)) ∧
    ((openaiStreamSends cs .ok).countP (fun c => c.isFinal) = 0 ∧
     (openaiStreamSends cs (.streamErr e)).countP (fun c => c.err.isSome) = 0) := by
  refine ⟨⟨?_, ?_⟩, ⟨?_, ?_⟩, ⟨?_, ?_, ?_⟩, ?_, ?_⟩
  · simp [deepseekStreamSends, List.countP_append, dsFragChunks_no_final,
      List.countP_cons, finalChunk]
  · simp [deepseekStreamSends]
  · simp [deepseekStreamSends, List.countP_append, dsFragChunks_no_final,
      List.countP_cons, errChunk]
  · simp [deepseekStreamSends]
  · simp [groqStreamSends, dsFragChunks_no_final]
  · simp [groqStreamSends, List.countP_append, dsFragChunks_no_final,
      List.countP_cons, errChunk]
  · simp [groqStreamSends]
  · simp [openaiStreamSends, dsFragChunks_no_final]
  · simp [openaiStreamSends, dsFragChunks_no_err]

/-- C5 counterexample: the openrouter `GenerateText` (unnamed part_002,
    one of the claim's cited sources) returns `("", nil, nil)` — success
    with empty text and a nil error — on a response with zero choices,
    not the claimed hard failure "no content generated". -/
theorem empty_content_success_cex :
    openrouterGenerateText [] usageZero = ("", Option.none, Option.none) ∧
    (openrouterGenerateText [] usageZero).2.2 ≠ some "no content generated" := by
  decide

/-- C5 amended: the hard-failure rule holds for the deepseek-style
    providers (deepseek, ai302, groq, cerebras, zai): zero choices and an
    empty first-choice content both return the same error kind,
    "no content generated".  The openrouter-style providers (openrouter,
    openai, inception) instead return an empty success on zero choices
    and never return a content-based error. -/
theorem empty_content_amended (rest : List String) (b : Bool)
    (u : UsageInfo) (cs : List ORMessage) :
    deepseekGenerateText [] b = .error "no content generated" ∧
    deepseekGenerateText ("" :: rest) b = .error "no content generated" ∧
    openrouterGenerateText [] u = ("", Option.none, Option.none) ∧
    (openrouterGenerateText cs u).2.2 = Option.none := by
  refine ⟨rfl, by simp [deepseekGenerateText], rfl, ?_⟩
  cases cs with
  | nil => rfl
  | cons m ms => cases h : m.toolCalls <;> simp [openrouterGenerateText, h]

/-- Joining no blocks gives the empty string. -/
theorem stringJoin_nil : String.join ([] : List String) = "" := rfl

/-- Left identity of string append. -/
theorem empty_string_append (s : String) : "" ++ s = s := by
  cases s
  rfl

/-- C6 counterexample: the deepseek builder (one of the claim's cited
    sources) places the system text first — its output is
    `"S\n\nPlease respond in Korean language."`, which does not start
    with the language directive. -/
theorem system_order_cex :
    deepseekBuildSystemPrompt c6opts = "S\n\nPlease respond in Korean language." ∧
    ((langDirectiveRespond "ko").toList.isPrefixOf
        (deepseekBuildSystemPrompt c6opts).toList) = false := by
  decide

/-- C6 amended: the ordering is per provider.  With empty `SystemBlocks`,
    a non-empty system text and a set, non-default language, the
    inception-style composers (inception, openai, openrouter) emit the
    language directive followed by the system text, while the
    deepseek-style builders emit the system text first and the directive
    after it; each order is deterministic. -/
theorem system_order_amended (s lang : String) (hs : s ≠ "") (hl : lang ≠ "") (hen : lang ≠ "en") :
    inceptionComposeSystemPrompt { system := s, language := lang } =
      inceptionLangReminderText lang ++ s ∧
    deepseekBuildSystemPrompt { system := s, language := lang } =
      trimString (s ++ "\n\n" ++ langDirectiveRespond lang ++ "\n\n") := by
  constructor
  · simp [inceptionComposeSystemPrompt, hl]
  · simp [deepseekBuildSystemPrompt, hs, hl, hen, String.append_assoc,
      stringJoin_nil, empty_string_append]

/-- Witness for C6 at system "S", language "ko". -/
theorem system_order_amended_witness :
    ("S" : String) ≠ "" ∧ ("ko" : String) ≠ "" ∧ ("ko" : String) ≠ "en" ∧
    (inceptionComposeSystemPrompt { system := "S", language := "ko" } =
       inceptionLangReminderText "ko" ++ "S" ∧
     deepseekBuildSystemPrompt { system := "S", language := "ko" } =
       trimString ("S" ++ "\n\n" ++ langDirectiveRespond "ko" ++ "\n\n")) :=
  ⟨by decide, by decide, by decide,
    system_order_amended "S" "ko" (by decide) (by decide) (by decide)⟩

/-- C7 counterexample: the ai302 composer (the claim's primary cited
    source) emits a language directive even for the default language
    "en" — the directive text occurs in its output at position 3. -/
theorem language_gate_cex :
    c7opts.language = "en" ∧
    ai302ComposeSystemPrompt c7opts = "S\n\nPlease respond in English language." ∧
    idxOfSub (langDirectiveRespond "en").toList (ai302ComposeSystemPrompt c7opts).toList =
      some 3 := by
  decide

/-- C7 amended: the directive gate and wording are per provider.  The
    deepseek-style builders emit the directive only when the language is
    set and differs from "en", naming the language via `GetLangName`
    (human-readable for codes in the table, e.g. "ko" becomes "Korean",
    but the raw code itself for unknown codes); the ai302-style composers
    emit the directive for every non-empty language, including the
    default "en"; the inception-style composers embed the raw code for
    every non-Korean language. -/
theorem language_gate_amended (s lang : String) (hs : s ≠ "") (hl : lang ≠ "") (hen : lang ≠ "en") :
    deepseekBuildSystemPrompt { system := s } = trimString (s ++ "\n\n") ∧
    deepseekBuildSystemPrompt { system := s, language := "en" } = trimString (s ++ "\n\n") ∧
    deepseekBuildSystemPrompt { system := s, language := lang } =
      trimString (s ++ "\n\n" ++ langDirectiveRespond lang ++ "\n\n") ∧
    getLangName "ko" = "Korean" ∧
    getLangName "xx" = "xx" ∧
    ai302ComposeSystemPrompt { system := s, language := "en" } =
      trimString (s ++ "\n\n" ++ langDirectiveRespond "en" ++ "\n\n") ∧
    inceptionLangReminderText "ja" = "Please write in ja. " := by
  refine ⟨?_, ?_, ?_, by decide, by decide, ?_, by decide⟩
  · simp [deepseekBuildSystemPrompt, hs, stringJoin_nil, empty_string_append]
  · simp [deepseekBuildSystemPrompt, hs, stringJoin_nil, empty_string_append]
  · simp [deepseekBuildSystemPrompt, hs, hl, hen, String.append_assoc,
      stringJoin_nil, empty_string_append]
  · simp [ai302ComposeSystemPrompt, hs, String.append_assoc,
      stringJoin_nil, empty_string_append]

/-- Witness for C7 at system "S", language "ja". -/
theorem language_gate_amended_witness :
    ("S" : String) ≠ "" ∧ ("ja" : String) ≠ "" ∧ ("ja" : String) ≠ "en" ∧
    (deepseekBuildSystemPrompt { system := "S" } = trimString ("S" ++ "\n\n") ∧
     deepseekBuildSystemPrompt { system := "S", language := "en" } = trimString ("S" ++ "\n\n") ∧
     deepseekBuildSystemPrompt { system := "S", language := "ja" } =
       trimString ("S" ++ "\n\n" ++ langDirectiveRespond "ja" ++ "\n\n") ∧
     getLangName "ko" = "Korean" ∧
     getLangName "xx" = "xx" ∧
     ai302ComposeSystemPrompt { system := "S", language := "en" } =
       trimString ("S" ++ "\n\n" ++ langDirectiveRespond "en" ++ "\n\n") ∧
     inceptionLangReminderText "ja" = "Please write in ja. ") :=
  ⟨by decide, by decide, by decide,
    language_gate_amended "S" "ja" (by decide) (by decide) (by decide)⟩

/- ### C3: channel closed exactly once on every exit path -/

/-- A run of sends contains no close event. -/
theorem countP_close_map_send (l : List StreamChunk) :
    ((l.map ChanEvent.send).countP isCloseEv) = 0 := by
  induction l with
  | nil => rfl
  | cons c cs ih => simp [List.countP_cons, isCloseEv, ih]

/-- A trace of sends followed by one close closes exactly once, last. -/
theorem sendTrace_close_spec (l : List StreamChunk) :
    ((l.map ChanEvent.send ++ [ChanEvent.close]).countP isCloseEv = 1 ∧
     (l.map ChanEvent.send ++ [ChanEvent.close]).getLast? = some ChanEvent.close) := by
  constructor
  · simp [List.countP_append, countP_close_map_send, List.countP_cons, isCloseEv]
  · simp

/-- C3: on every modelled exit path of `GenerateTextStream` — normal
    completion, transport/HTTP error, mid-stream read error, tool-schema
    failure and caller cancellation — the trace of channel events
    contains exactly one close and the close is the last event: the
    deferred `close(outChan)` runs once per call, on every path, and
    never twice. -/
theorem stream_channel_closed_once (cs : List DsChunk) (dex : DsStreamExit)
    (evs : List ClaudeStreamEvent) (cex : ClaudeStreamExit) :
    ((deepseekStreamTrace cs dex).countP isCloseEv = 1 ∧
     (deepseekStreamTrace cs dex).getLast? = some ChanEvent.close) ∧
    ((claudeStreamTrace evs cex).countP isCloseEv = 1 ∧
     (claudeStreamTrace evs cex).getLast? = some ChanEvent.close) := by
  constructor
  · cases dex with
    | ok => exact sendTrace_close_spec (deepseekStreamSends cs .ok)
    | streamErr e => exact sendTrace_close_spec (deepseekStreamSends cs (.streamErr e))
  · cases cex with
    | marshalErr e => exact ⟨rfl, rfl⟩
    | newRequestErr e => exact ⟨rfl, rfl⟩
    | doErrCancelled => exact ⟨rfl, rfl⟩
    | doErr e => exact ⟨rfl, rfl⟩
    | statusErr e => exact ⟨rfl, rfl⟩
    | toolSchemaErr e => exact ⟨rfl, rfl⟩
    | toolPropsErr => exact ⟨rfl, rfl⟩
    | cancelledAt k => exact sendTrace_close_spec (claudeBodySends (evs.take k))
    | readErrAt k e =>
      constructor
      · simp [claudeStreamTrace, List.countP_append, countP_close_map_send,
          List.countP_cons, isCloseEv]
      · simp [claudeStreamTrace]
    | eofClean => exact sendTrace_close_spec (claudeBodySends evs)

/- ### C4: usage accounting -/

/-- A later usage frame fully overwrites an earlier one. -/
theorem claudeApplyUsage_overwrite (acc : UsageInfo) (u v : ClaudeUsage) :
    claudeApplyUsage (claudeApplyUsage acc u) v = claudeApplyUsage acc v := rfl

/-- Folding overwriting updates keeps only the last one. -/
theorem foldl_applyUsage_last (us : List ClaudeUsage) (acc : UsageInfo) :
    us.foldl claudeApplyUsage acc = us.getLast?.elim acc (claudeApplyUsage acc) := by
  induction us generalizing acc with
  | nil => rfl
  | cons u us ih =>
    cases us with
    | nil => rfl
    | cons v vs =>
      rw [List.foldl_cons, ih, List.getLast?_cons_cons]
      cases h : (v :: vs).getLast? with
      | none => simp at h
      | some w => simp [claudeApplyUsage_overwrite]

/-- The stream fold visits exactly the usage-bearing frames. -/
theorem claudeFold_filterMap (evs : List ClaudeStreamEvent) (acc : UsageInfo) :
    evs.foldl claudeUsageStep acc =
      (evs.filterMap claudeUsageOfEvent).foldl claudeApplyUsage acc := by
  induction evs generalizing acc with
  | nil => rfl
  | cons ev evs ih =>
    cases h : claudeUsageOfEvent ev with
    | none => simp [List.filterMap_cons, h, claudeUsageStep, ih]
    | some u => simp [List.filterMap_cons, h, claudeUsageStep, ih]

/-- C4 counterexample: on the claim's reference frame sequence the claude
    stream accounting yields `InputTokens = 0` and `OutputTokens = 0`
    (the final `{cacheHit:3}` frame resets them), not the claimed
    `{input:10, output:5, cacheHit:3}`. -/
theorem usage_overwrite_cex :
    ¬ ((claudeFoldUsage c4Frames).inputTokens = 10 ∧
       (claudeFoldUsage c4Frames).outputTokens = 5 ∧
       (claudeFoldUsage c4Frames).cacheHitTokens = 3) := by
  decide

/-- C4 amended: every usage-bearing frame overwrites the whole running
    record — fields absent from a frame are reset to zero rather than
    retained — so the final record equals the last usage-bearing frame's
    values (with `CacheMissTokens` never written by the stream loop).
    On the reference sequence the final record is
    `{input: 0, output: 0, cacheCreate: 0, cacheHit: 3}`. -/
theorem usage_last_writer_amended (evs : List ClaudeStreamEvent) :
    claudeFoldUsage evs =
      ((evs.filterMap claudeUsageOfEvent).getLast?).elim usageZero
        (claudeApplyUsage usageZero) ∧
    claudeFoldUsage c4Frames =
      { inputTokens := 0, outputTokens := 0, cacheCreateTokens := 0,
        cacheHitTokens := 3, cacheMissTokens := 0 } := by
  constructor
  · rw [claudeFoldUsage, claudeFold_filterMap, foldl_applyUsage_last]
  · decide

/- ### C9: wire-key emission of `ConvertSchemaToMap` -/

theorem wmKeys_append : (a b : WireMap) → wmKeys (wmAppend a b) = wmKeys a ++ wmKeys b
  | .nil, _ => rfl
  | .cons k v rest, b => by simp [wmAppend, wmKeys, wmKeys_append rest b]

theorem wmKeys_strEntry (s k : String) :
    wmKeys (strEntry s k) = if s ≠ "" then [k] else [] := by
  unfold strEntry
  split <;> rfl

theorem wmKeys_optIntEntry (o : Option Int) (k : String) :
    wmKeys (optIntEntry o k) = if o.isSome then [k] else [] := by
  cases o <;> rfl

theorem wmKeys_optBoolEntry (o : Option Bool) (k : String) :
    wmKeys (optBoolEntry o k) = if o.isSome then [k] else [] := by
  cases o <;> rfl

theorem wmKeys_optJsonEntry (o : Option JsonVal) (k : String) :
    wmKeys (optJsonEntry o k) = if o.isSome then [k] else [] := by
  cases o <;> rfl

theorem wmKeys_boolEntry (b : Bool) (k : String) :
    wmKeys (boolEntry b k) = if b then [k] else [] := by
  unfold boolEntry
  split <;> rfl

theorem wmKeys_strListEntry (l : List String) (k : String) :
    wmKeys (strListEntry l k) = if l ≠ [] then [k] else [] := by
  unfold strListEntry
  split <;> rfl

theorem wmKeys_jsonListEntry (l : List JsonVal) (k : String) :
    wmKeys (jsonListEntry l k) = if l ≠ [] then [k] else [] := by
  unfold jsonListEntry
  split <;> rfl

theorem wmLookup_wmAppend_of_none : (a b : WireMap) → (k : String) →
    wmLookup k a = Option.none → wmLookup k (wmAppend a b) = wmLookup k b
  | .nil, _, _, _ => rfl
  | .cons k' v rest, b, k, h => by
    by_cases hk : k' = k
    · simp [wmLookup, hk] at h
    · simp only [wmAppend, wmLookup, if_neg hk] at h ⊢
      exact wmLookup_wmAppend_of_none rest b k h

theorem wmLookup_wmAppend_head (k : String) (v : Wire) (rest : WireMap) :
    wmLookup k (wmAppend (WireMap.cons k v .nil) rest) = Option.some v := by
  simp [wmAppend, wmLookup]

theorem wmLookup_strEntry_ne (s k k' : String) (h : ¬ k = k') :
    wmLookup k' (strEntry s k) = Option.none := by
  unfold strEntry
  split <;> simp [wmLookup, h]

theorem mem_ite_singleton {c : Prop} [Decidable c] (x k : String) :
    x ∈ (if c then [k] else []) ↔ c ∧ x = k := by
  split <;> simp_all

/-- C9: `ConvertSchemaToMap` emits a wire key exactly when the
    corresponding Go field is present / non-default.  The key list is
    exactly the concatenation of one optional key per field, where every
    optional numeric or length constraint is keyed on pointer presence —
    so a constraint explicitly set to `0` (a non-nil pointer to `0`,
    e.g. `Minimum`) is still emitted while a nil constraint is omitted —
    and the `items` and `properties` values are the recursive conversions
    of the nested schemas, so the same presence test holds at every
    depth.  (The struct's `Description` and `Format` fields are outside
    the converter's key set: it never reads them.) -/
theorem convertSchemaToMap_keys (sc : SchemaScalars) (props : OptProps) (items : OptItems) :
    (wmKeys (convertSchemaToMap (.mk sc props items)) =
      (if sc.type ≠ "" then ["type"] else []) ++
      (if props.isSome then ["properties"] else []) ++
      (if items.isSome then ["items"] else []) ++
      (if sc.minLength.isSome then ["minLength"] else []) ++
      (if sc.maxLength.isSome then ["maxLength"] else []) ++
      (if sc.pattern ≠ "" then ["pattern"] else []) ++
      (if sc.minimum.isSome then ["minimum"] else []) ++
      (if sc.maximum.isSome then ["maximum"] else []) ++
      (if sc.multipleOf.isSome then ["multipleOf"] else []) ++
      (if sc.minItems.isSome then ["minItems"] else []) ++
      (if sc.maxItems.isSome then ["maxItems"] else []) ++
      (if sc.uniqueItems then ["uniqueItems"] else []) ++
      (if sc.required ≠ [] then ["required"] else []) ++
      (if sc.enum ≠ [] then ["enum"] else []) ++
      (if sc.constVal.isSome then ["const"] else []) ++
      (if sc.defaultVal.isSome then ["default"] else []) ++
      (if sc.ref ≠ "" then ["$ref"] else []) ++
      (if sc.additionalProperties.isSome then ["additionalProperties"] else [])) ∧
    (∀ p, items = OptItems.some p →
      wmLookup "items" (convertSchemaToMap (.mk sc props items)) =
        Option.some (Wire.obj (convertSchemaToMap p))) ∧
    (∀ ps, props = OptProps.some ps →
      wmLookup "properties" (convertSchemaToMap (.mk sc props items)) =
        Option.some (Wire.obj (convertPropList ps))) ∧
    (sc.minimum = some 0 → "minimum" ∈ wmKeys (convertSchemaToMap (.mk sc props items))) ∧
    (sc.minimum = Option.none → "minimum" ∉ wmKeys (convertSchemaToMap (.mk sc props items))) := by
  have hkeys : wmKeys (convertSchemaToMap (.mk sc props items)) =
      (if sc.type ≠ "" then ["type"] else []) ++
      (if props.isSome then ["properties"] else []) ++
      (if items.isSome then ["items"] else []) ++
      (if sc.minLength.isSome then ["minLength"] else []) ++
      (if sc.maxLength.isSome then ["maxLength"] else []) ++
      (if sc.pattern ≠ "" then ["pattern"] else []) ++
      (if sc.minimum.isSome then ["minimum"] else []) ++
      (if sc.maximum.isSome then ["maximum"] else []) ++
      (if sc.multipleOf.isSome then ["multipleOf"] else []) ++
      (if sc.minItems.isSome then ["minItems"] else []) ++
      (if sc.maxItems.isSome then ["maxItems"] else []) ++
      (if sc.uniqueItems then ["uniqueItems"] else []) ++
      (if sc.required ≠ [] then ["required"] else []) ++
      (if sc.enum ≠ [] then ["enum"] else []) ++
      (if sc.constVal.isSome then ["const"] else []) ++
      (if sc.defaultVal.isSome then ["default"] else []) ++
      (if sc.ref ≠ "" then ["$ref"] else []) ++
      (if sc.additionalProperties.isSome then ["additionalProperties"] else []) := by
    cases props <;> cases items <;>
      simp [convertSchemaToMap, wmKeys_append, wmKeys_strEntry, wmKeys_optIntEntry,
        wmKeys_optBoolEntry, wmKeys_optJsonEntry, wmKeys_boolEntry, wmKeys_strListEntry,
        wmKeys_jsonListEntry, wmKeys, OptProps.isSome, OptItems.isSome, List.append_assoc]
  refine ⟨hkeys, ?_, ?_, ?_, ?_⟩
  · intro p hp
    subst hp
    unfold convertSchemaToMap
    rw [wmLookup_wmAppend_of_none _ _ _ (wmLookup_strEntry_ne _ _ _ (by decide)),
      wmLookup_wmAppend_of_none _ _ _ (by cases props <;> simp [wmLookup]),
      wmLookup_wmAppend_head, convertSchemaToMap.eq_def]
  · intro ps hp
    subst hp
    unfold convertSchemaToMap
    rw [wmLookup_wmAppend_of_none _ _ _ (wmLookup_strEntry_ne _ _ _ (by decide)),
      wmLookup_wmAppend_head]
  · intro h
    rw [hkeys, h]
    simp [List.mem_append]
  · intro h
    rw [hkeys, h]
    simp [List.mem_append, mem_ite_singleton]

/-- Witness for C9 at a concrete schema: the emitted key sets are exactly
    the present fields, the zero-valued `Minimum` pointer is still
    emitted, and the `items` value is the recursive conversion. -/
theorem convertSchemaToMap_keys_witness :
    wmKeys (convertSchemaToMap demoSchema) = ["type", "items"] ∧
    wmKeys (convertSchemaToMap demoLeaf) = ["type", "minimum"] ∧
    wmLookup "items" (convertSchemaToMap demoSchema) =
      Option.some (Wire.obj (convertSchemaToMap demoLeaf)) ∧
    "minimum" ∈ wmKeys (convertSchemaToMap demoLeaf) :=
  ⟨((convertSchemaToMap_keys { type := "array" } OptProps.none
      (OptItems.some demoLeaf)).1).trans (by decide),
   ((convertSchemaToMap_keys { type := "integer", minimum := some 0 } OptProps.none
      OptItems.none).1).trans (by decide),
   (convertSchemaToMap_keys { type := "array" } OptProps.none
      (OptItems.some demoLeaf)).2.1 demoLeaf rfl,
   (convertSchemaToMap_keys { type := "integer", minimum := some 0 } OptProps.none
      OptItems.none).2.2.2.1 rfl⟩
